import Mathlib

/-!
Verification of the agentic tool-calling orchestrator in
src/agent/agent.py (the SOC analyst agent).

The orchestrator core is the function run_soc_agent: it discovers tools,
converts them to the reasoning engine's calling format
(convert_mcp_tool_to_ollama_format), seeds a transcript with a system
and a user message, and then runs a bounded loop: each iteration makes
exactly one chat call to the reasoning engine, records the assistant
message, and either terminates (no tool calls requested) or executes
every requested tool call against the MCP provider, appending one tool
result message per request, in request order.

External collaborators (the Ollama chat endpoint, the MCP session's
call_tool entry point, and the json module's string decoder) are
modelled as function-valued parameters gathered in the Env structure:
a provider exception is an Except.error value, a json decode failure is
none. Everything the orchestrator itself does (lines 243-341 of
agent.py) is translated directly.
-/

set_option maxHeartbeats 1000000

namespace SocAgent

/-- A JSON-like structured value, modelling the Python values that appear
as tool parameter schemas and decoded tool-call arguments. -/
inductive Json where
  | null : Json
  | bool : Bool → Json
  | num : Int → Json
  | str : String → Json
  | arr : List Json → Json
  | obj : List (String × Json) → Json

/-- A structured argument map: a Python dict of keyword arguments. -/
abbrev ArgMap := List (String × Json)

/-- A capability descriptor discovered from the MCP server:
name, description and JSON-Schema input description
(the MCP Tool object of agent.py lines 76-79). -/
structure McpTool where
  name : String
  description : String
  inputSchema : Json

/-- The inner function object of the Ollama (OpenAI-style) tool format. -/
structure OllamaFunction where
  name : String
  description : String
  parameters : Json

/-- The Ollama tool format: a tagged wrapper around OllamaFunction
(agent.py lines 86-94). -/
structure OllamaTool where
  type : String
  function : OllamaFunction

/-- agent.py lines 72-94: convert an MCP Tool object into the format the
reasoning engine expects. The inputSchema is passed through unchanged. -/
def convert_mcp_tool_to_ollama_format (mcp_tool : McpTool) : OllamaTool :=
  ⟨"function", ⟨mcp_tool.name, mcp_tool.description, mcp_tool.inputSchema⟩⟩

/-- Raw arguments of a tool call as returned by the reasoning engine:
depending on the Ollama version they arrive either as a JSON-encoded
string or as an already-structured map (agent.py lines 299-300). -/
inductive RawArgs where
  | ofString : String → RawArgs
  | ofMap : ArgMap → RawArgs

/-- The function part of a requested tool call: tc.function.name and
tc.function.arguments in agent.py. -/
structure FunctionCall where
  name : String
  arguments : RawArgs

/-- A requested tool call as it appears in the engine response and in the
recorded assistant message. -/
structure ToolCall where
  function : FunctionCall

/-- The reasoning engine's response message (response.message in
agent.py line 261): optional text content and an optional list of
requested tool calls; either may be absent. -/
structure ChatMessage where
  content : Option String
  tool_calls : Option (List ToolCall)

/-- A transcript message. The assistant variant records the normalized
content string and the normalized tool-call list built at agent.py
lines 266-279; the tool variant records one tool result
(lines 334-337). -/
inductive Message where
  | system : String → Message
  | user : String → Message
  | assistant : String → List ToolCall → Message
  | tool : String → Message

/-- One content block of an MCP call_tool response. -/
structure ContentBlock where
  text : String

/-- The MCP call_tool response: a list of content blocks. -/
structure CallToolResult where
  content : List ContentBlock

/-- The orchestrator's external collaborators.

chat models ollama_client.chat (line 255): the full transcript goes in,
the engine's message comes out. An unreachable engine would raise out of
run_soc_agent (fatal, line 347-349) and is outside the loop's behavior.

call_tool models session.call_tool (line 315): an Except.error value is
a raised provider exception, carrying str(e).

json_loads models json.loads (line 303): none is a raised
JSONDecodeError, some is the decoded structure. -/
structure Env where
  chat : List Message → ChatMessage
  call_tool : String → ArgMap → Except String CallToolResult
  json_loads : String → Option ArgMap

/-- agent.py lines 299-305: normalize raw tool-call arguments to a
structured map. A structured map passes through unchanged; a string is
decoded; a string that fails to decode becomes the empty map. -/
def normalizeArgs (json_loads : String → Option ArgMap) : RawArgs → ArgMap
  | RawArgs.ofMap m => m
  | RawArgs.ofString s =>
      match json_loads s with
      | some m => m
      | none => []

/-- agent.py lines 314-328: turn one provider outcome into the recorded
result text. On success take the first content block's text,
substituting a sentinel when the response has no content blocks; on a
raised exception record the error string. -/
def resultTextOf : Except String CallToolResult → String
  | Except.ok mcp_result =>
      match mcp_result.content with
      | [] => "Tool returned no content"
      | block :: _ => block.text
  | Except.error e => "Tool execution error: " ++ e

/-- agent.py lines 295-328 for a single requested tool call: normalize
the arguments, invoke the provider, and capture the outcome as text.
Total: no exception escapes (the source wraps the call in
try/except Exception). -/
def executeToolCall (env : Env) (tool_call : ToolCall) : String :=
  resultTextOf
    (env.call_tool tool_call.function.name
      (normalizeArgs env.json_loads tool_call.function.arguments))

/-- agent.py lines 266-279: the assistant message appended to the
transcript. An absent content becomes the empty string; an absent
tool-call list becomes the empty list; each recorded call keeps the
request's name and raw arguments. -/
def recordAssistant (llm_message : ChatMessage) : Message :=
  Message.assistant (llm_message.content.getD "")
    ((llm_message.tool_calls.getD []).map fun tc =>
      (⟨⟨tc.function.name, tc.function.arguments⟩⟩ : ToolCall))

/-- The loop's terminal outcome: the early return at line 288 with the
engine's raw content, or falling out of the while loop at line 341. -/
inductive Outcome where
  | completed : Option String → Outcome
  | exhausted : Outcome

/-- The fixed string returned at agent.py line 341 when the iteration
ceiling is reached. -/
def exhaustedMessage : String :=
  "Agent reached maximum iterations without completing analysis."

/-- The value run_soc_agent actually returns to its caller: line 288
returns llm_message.content as is (possibly None, hence Option), and
line 341 returns the fixed exhaustion string. -/
def Outcome.returnValue : Outcome → Option String
  | Outcome.completed text => text
  | Outcome.exhausted => some exhaustedMessage

/-- The loop's result, exposing its local state for verification:
the outcome, the final transcript (the messages variable), and the
final value of the iteration counter, which counts engine calls since
it is incremented exactly once immediately before each chat call. -/
structure RunResult where
  outcome : Outcome
  messages : List Message
  engineCalls : Nat

/-- agent.py lines 243-341, the agent loop, as fuel recursion with
fuel standing for MAX_ITERATIONS - iteration (so the while guard
iteration < MAX_ITERATIONS is fuel > 0). Each pass increments the
counter, makes one chat call, appends the assistant message, and either
returns the content (no requested tool calls: None or empty list, the
falsy test at line 285) or executes every requested call, appends one
tool message per call in request order, and loops. -/
def agentLoop (env : Env) : Nat → Nat → List Message → RunResult
  | 0, iteration, messages => ⟨Outcome.exhausted, messages, iteration⟩
  | fuel + 1, iteration, messages =>
      let llm_message := env.chat messages
      let messages2 := messages ++ [recordAssistant llm_message]
      if (llm_message.tool_calls.getD []).isEmpty then
        ⟨Outcome.completed llm_message.content, messages2, iteration + 1⟩
      else
        agentLoop env fuel (iteration + 1)
          (messages2 ++ (llm_message.tool_calls.getD []).map
            (fun tc => Message.tool (executeToolCall env tc)))

/-- Default configuration values (agent.py lines 51-62); each may be
overridden by an environment variable, so the loop takes the ceiling as
a parameter. -/
def MAX_ITERATIONS : Nat := 10

/-- Default model identifier (agent.py line 58). -/
def MODEL : String := "llama3.1:8b"

/-- The system prompt seeded as the first transcript message
(agent.py lines 198-212). -/
def system_prompt : String :=
  "You are a skilled SOC (Security Operations Center) analyst.\n" ++
  "Your job is to investigate security alerts and provide threat assessments.\n\n" ++
  "IMPORTANT: You have tools available. You MUST call them to gather data — " ++
  "do NOT write out JSON or describe tool calls in text. " ++
  "Use the actual tool-calling mechanism provided to you.\n\n" ++
  "Start by calling get_recent_alerts to see current alerts. " ++
  "Then for each external IP address found, call check_ip_reputation and " ++
  "lookup_ip_geolocation to gather threat intelligence.\n\n" ++
  "Private IP ranges (10.x.x.x, 192.168.x.x, 172.16-31.x.x) are internal " ++
  "and generally less suspicious than external IPs.\n\n" ++
  "Only after you have gathered all the data using tools, write your final " ++
  "threat assessment with:\n- Summary of findings\n" ++
  "- Risk level (LOW/MEDIUM/HIGH/CRITICAL) for each alert\n" ++
  "- Recommended actions (BLOCK, MONITOR, or INVESTIGATE)\n\n" ++
  "Always reference actual alert IDs and IP addresses in your analysis."

/-- agent.py run_soc_agent after discovery: seed the transcript with the
system prompt and the user query (lines 216-219), set the counter to
zero (line 243), and run the loop with the configured ceiling. -/
def run_soc_agent (env : Env) (max_iterations : Nat) (user_query : String) : RunResult :=
  agentLoop env max_iterations 0
    [Message.system system_prompt, Message.user user_query]

/-- Test engine behavior: always requests one get_recent_alerts call,
so the loop can only stop at the iteration ceiling. -/
def envLoop : Env :=
  ⟨fun _ => ⟨some "gathering data",
      some [⟨⟨"get_recent_alerts", RawArgs.ofMap []⟩⟩]⟩,
   fun _ _ => Except.ok ⟨[⟨"3 alerts found"⟩]⟩,
   fun _ => none⟩

/-- Test engine behavior: immediately answers with no tool calls
(the spec's Scenario A shape). -/
def envFinal : Env :=
  ⟨fun _ => ⟨some "No alerts require action.", some []⟩,
   fun _ _ => Except.ok ⟨[⟨"unused"⟩]⟩,
   fun _ => none⟩

/-- Test engine behavior: immediately answers, and its closing text
happens to equal the fixed exhaustion string. -/
def envSentinel : Env :=
  ⟨fun _ => ⟨some exhaustedMessage, none⟩,
   fun _ _ => Except.ok ⟨[⟨"unused"⟩]⟩,
   fun _ => none⟩

/-- A request whose provider call succeeds under envBatch. -/
def tcGood : ToolCall :=
  ⟨⟨"check_ip_reputation", RawArgs.ofString "ip-payload"⟩⟩

/-- A request whose provider call raises under envBatch. -/
def tcBad : ToolCall :=
  ⟨⟨"lookup_ip_geolocation", RawArgs.ofMap []⟩⟩

/-- Test behavior with a two-call batch whose second call raises a
provider exception; the decoder accepts exactly one payload string. -/
def envBatch : Env :=
  ⟨fun _ => ⟨none, some [tcGood, tcBad]⟩,
   fun tool_name _ =>
     if tool_name = "check_ip_reputation" then
       Except.ok ⟨[⟨"reputation: malicious"⟩]⟩
     else
       Except.error "Connection lost",
   fun s =>
     if s = "ip-payload" then
       some [("ip_address", Json.str "45.33.32.156")]
     else
       none⟩

/-- A request answered with zero content blocks under envNoContent. -/
def tcNone : ToolCall :=
  ⟨⟨"get_recent_alerts", RawArgs.ofMap []⟩⟩

/-- A request answered with two content blocks under envNoContent. -/
def tcBlocks : ToolCall :=
  ⟨⟨"check_ip_reputation", RawArgs.ofMap []⟩⟩

/-- Test behavior whose provider succeeds with zero content blocks for
one tool and with two blocks for every other tool. -/
def envNoContent : Env :=
  ⟨fun _ => ⟨none, none⟩,
   fun tool_name _ =>
     if tool_name = "get_recent_alerts" then
       Except.ok ⟨[]⟩
     else
       Except.ok ⟨[⟨"block one"⟩, ⟨"block two"⟩]⟩,
   fun _ => none⟩

/-- Unfolding the loop body when the decision carries no requested tool
calls: the iteration completes with the decision's raw content, and only
the assistant message is appended. -/
theorem agentLoop_step_empty (env : Env) (fuel iteration : Nat) (messages : List Message)
    (h : (env.chat messages).tool_calls.getD [] = []) :
    agentLoop env (fuel + 1) iteration messages =
      ⟨Outcome.completed (env.chat messages).content,
       messages ++ [recordAssistant (env.chat messages)], iteration + 1⟩ := by
  simp [agentLoop, h]

/-- Unfolding the loop body when the decision requests at least one tool
call: the assistant message and one tool message per request (in request
order) are appended, and the loop continues with one unit of fuel spent. -/
theorem agentLoop_step_calls (env : Env) (fuel iteration : Nat) (messages : List Message)
    (h : (env.chat messages).tool_calls.getD [] ≠ []) :
    agentLoop env (fuel + 1) iteration messages =
      agentLoop env fuel (iteration + 1)
        (messages ++ recordAssistant (env.chat messages) ::
          ((env.chat messages).tool_calls.getD []).map
            (fun tc => Message.tool (executeToolCall env tc))) := by
  have hne : ((env.chat messages).tool_calls.getD []).isEmpty = false := by
    cases hg : (env.chat messages).tool_calls.getD [] with
    | nil => exact absurd hg h
    | cons a l => rfl
  simp [agentLoop, hne]

/-- The loop only ever appends to the transcript it is given. -/
theorem agentLoop_extends (env : Env) :
    ∀ (fuel iteration : Nat) (messages : List Message),
      ∃ rest, (agentLoop env fuel iteration messages).messages = messages ++ rest := by
  intro fuel
  induction fuel with
  | zero =>
      intro iteration messages
      exact ⟨[], by simp [agentLoop]⟩
  | succ n ih =>
      intro iteration messages
      by_cases h : (env.chat messages).tool_calls.getD [] = []
      · exact ⟨[recordAssistant (env.chat messages)],
          by rw [agentLoop_step_empty env n iteration messages h]⟩
      · rw [agentLoop_step_calls env n iteration messages h]
        obtain ⟨rest, hr⟩ := ih (iteration + 1)
          (messages ++ recordAssistant (env.chat messages) ::
            ((env.chat messages).tool_calls.getD []).map
              (fun tc => Message.tool (executeToolCall env tc)))
        exact ⟨(recordAssistant (env.chat messages) ::
            ((env.chat messages).tool_calls.getD []).map
              (fun tc => Message.tool (executeToolCall env tc))) ++ rest,
          by rw [hr, List.append_assoc]⟩

/-- With an engine that always requests tool calls, the loop burns all
its fuel, exhausts, and the counter advances once per pass. -/
theorem agentLoop_exhausts (env : Env)
    (h : ∀ messages, (env.chat messages).tool_calls.getD [] ≠ []) :
    ∀ (fuel iteration : Nat) (messages : List Message),
      (agentLoop env fuel iteration messages).outcome = Outcome.exhausted ∧
      (agentLoop env fuel iteration messages).engineCalls = iteration + fuel := by
  intro fuel
  induction fuel with
  | zero =>
      intro iteration messages
      exact ⟨rfl, rfl⟩
  | succ n ih =>
      intro iteration messages
      rw [agentLoop_step_calls env n iteration messages (h messages)]
      obtain ⟨h1, h2⟩ := ih (iteration + 1)
        (messages ++ recordAssistant (env.chat messages) ::
          ((env.chat messages).tool_calls.getD []).map
            (fun tc => Message.tool (executeToolCall env tc)))
      refine ⟨h1, ?_⟩
      rw [h2]
      omega

/-- C1: for every reasoning-engine behavior that returns a non-empty
sequence of tool-call requests on every iteration, the session makes
exactly max_iterations engine calls (one per iteration, never more) and
terminates with the exhausted outcome. -/
theorem C1_termination_bound (env : Env) (max_iterations : Nat) (user_query : String)
    (h : ∀ messages, (env.chat messages).tool_calls.getD [] ≠ []) :
    (run_soc_agent env max_iterations user_query).outcome = Outcome.exhausted ∧
    (run_soc_agent env max_iterations user_query).engineCalls = max_iterations := by
  simpa [run_soc_agent] using
    agentLoop_exhausts env h max_iterations 0
      [Message.system system_prompt, Message.user user_query]

/-- C1 witness: a concrete always-calling engine with ceiling 3 exhausts
after exactly 3 engine calls (the spec's Scenario D shape). -/
theorem C1_termination_bound_witness :
    (run_soc_agent envLoop 3 "investigate the alerts").outcome = Outcome.exhausted ∧
    (run_soc_agent envLoop 3 "investigate the alerts").engineCalls = 3 :=
  C1_termination_bound envLoop 3 "investigate the alerts"
    (fun messages => by simp [envLoop])

/-- C2: in an iteration whose decision requests at least one tool call,
every request in the batch is executed and recorded (one tool message
per request, siblings of a failing call included), a provider exception
for an individual call is captured as recorded error text rather than
escaping (executeToolCall is a total function), and the loop continues
to the next iteration instead of aborting. -/
theorem C2_error_containment (env : Env) (fuel iteration : Nat) (messages : List Message)
    (h : (env.chat messages).tool_calls.getD [] ≠ []) :
    (agentLoop env (fuel + 1) iteration messages =
       agentLoop env fuel (iteration + 1)
         (messages ++ recordAssistant (env.chat messages) ::
           ((env.chat messages).tool_calls.getD []).map
             (fun tc => Message.tool (executeToolCall env tc)))) ∧
    (∀ tc e,
       env.call_tool tc.function.name
           (normalizeArgs env.json_loads tc.function.arguments) = Except.error e →
       executeToolCall env tc = "Tool execution error: " ++ e) := by
  refine ⟨agentLoop_step_calls env fuel iteration messages h, ?_⟩
  intro tc e he
  simp [executeToolCall, he, resultTextOf]

/-- C2 witness: in a concrete two-call batch whose second provider call
raises, the failure is recorded as error text and the loop continues
with both results appended. -/
theorem C2_error_containment_witness :
    executeToolCall envBatch tcBad = "Tool execution error: Connection lost" ∧
    agentLoop envBatch 1 0 [] =
      agentLoop envBatch 0 1
        [Message.assistant "" [tcGood, tcBad],
         Message.tool "reputation: malicious",
         Message.tool "Tool execution error: Connection lost"] := by
  have h := C2_error_containment envBatch 0 0 [] (by simp [envBatch])
  refine ⟨h.2 tcBad "Connection lost" (by rfl), h.1.trans (by rfl)⟩

/-- C3: for a decision with N requested tool calls the transcript gains
exactly N tool result messages, one per request regardless of success or
failure, and the i-th appended result records the execution of the i-th
request (request order preserved). -/
theorem C3_order_preservation (env : Env) (fuel iteration : Nat) (messages : List Message)
    (h : (env.chat messages).tool_calls.getD [] ≠ []) :
    (agentLoop env (fuel + 1) iteration messages =
       agentLoop env fuel (iteration + 1)
         (messages ++ recordAssistant (env.chat messages) ::
           ((env.chat messages).tool_calls.getD []).map
             (fun tc => Message.tool (executeToolCall env tc)))) ∧
    ((((env.chat messages).tool_calls.getD []).map
        (fun tc => Message.tool (executeToolCall env tc))).length =
      ((env.chat messages).tool_calls.getD []).length) ∧
    (∀ i (hi : i < ((env.chat messages).tool_calls.getD []).length),
       (((env.chat messages).tool_calls.getD []).map
           (fun tc => Message.tool (executeToolCall env tc))).get
           ⟨i, by simpa using hi⟩ =
         Message.tool (executeToolCall env
           (((env.chat messages).tool_calls.getD []).get ⟨i, hi⟩))) := by
  refine ⟨agentLoop_step_calls env fuel iteration messages h, by simp, ?_⟩
  intro i hi
  simp

/-- C3 witness: the concrete two-call batch appends exactly its two
results, in request order, before the loop resumes. -/
theorem C3_order_preservation_witness :
    ((envBatch.chat []).tool_calls.getD []).length = 2 ∧
    agentLoop envBatch 1 0 [] =
      ⟨Outcome.exhausted,
       [Message.assistant "" [tcGood, tcBad],
        Message.tool "reputation: malicious",
        Message.tool "Tool execution error: Connection lost"], 1⟩ := by
  have h := C3_order_preservation envBatch 0 0 [] (by simp [envBatch])
  exact ⟨rfl, h.1.trans (by rfl)⟩

/-- C4: an iteration whose decision carries an empty requested-call
sequence terminates immediately as completed, the session result is the
decision's raw content, and only the assistant message is appended (no
tool execution happens in that iteration). -/
theorem C4_empty_calls_complete (env : Env) (fuel iteration : Nat) (messages : List Message)
    (h : (env.chat messages).tool_calls.getD [] = []) :
    agentLoop env (fuel + 1) iteration messages =
      ⟨Outcome.completed (env.chat messages).content,
       messages ++ [recordAssistant (env.chat messages)], iteration + 1⟩ :=
  agentLoop_step_empty env fuel iteration messages h

/-- C4 witness: an engine that answers at once (Scenario A shape) makes
the session complete on iteration 1 with its text, executing no tool. -/
theorem C4_empty_calls_complete_witness :
    run_soc_agent envFinal 10 "summarize the alerts" =
      ⟨Outcome.completed (some "No alerts require action."),
       [Message.system system_prompt, Message.user "summarize the alerts",
        Message.assistant "No alerts require action." []], 1⟩ :=
  (C4_empty_calls_complete envFinal 9 0
    [Message.system system_prompt, Message.user "summarize the alerts"]
    (by simp [envFinal])).trans (by rfl)

/-- C5: the transcript is append-only: the transcript reached from any
loop state extends that state's transcript, so an earlier snapshot is a
prefix of every later one and no previously appended message ever
changes. -/
theorem C5_transcript_append_only (env : Env) (fuel iteration : Nat) (messages : List Message) :
    ∃ rest, (agentLoop env fuel iteration messages).messages = messages ++ rest :=
  agentLoop_extends env fuel iteration messages

/-- C6: raw arguments are normalized to a structured map before
dispatch: a structured map passes through unchanged, a decodable string
is decoded, and a malformed string normalizes to the empty map with the
provider still invoked on that empty map. -/
theorem C6_argument_normalization (env : Env) (tool_name s : String) (m : ArgMap) :
    (normalizeArgs env.json_loads (RawArgs.ofMap m) = m) ∧
    (env.json_loads s = some m →
       normalizeArgs env.json_loads (RawArgs.ofString s) = m) ∧
    (env.json_loads s = none →
       normalizeArgs env.json_loads (RawArgs.ofString s) = [] ∧
       executeToolCall env ⟨⟨tool_name, RawArgs.ofString s⟩⟩ =
         resultTextOf (env.call_tool tool_name [])) := by
  refine ⟨rfl, ?_, ?_⟩
  · intro hd
    simp [normalizeArgs, hd]
  · intro hd
    exact ⟨by simp [normalizeArgs, hd], by simp [executeToolCall, normalizeArgs, hd]⟩

/-- C6 witness: a decodable payload decodes, the malformed payload
"not-json" normalizes to the empty map, and the provider is still
invoked on the empty map (Scenario C shape). -/
theorem C6_argument_normalization_witness :
    normalizeArgs envBatch.json_loads (RawArgs.ofString "ip-payload") =
      [("ip_address", Json.str "45.33.32.156")] ∧
    normalizeArgs envBatch.json_loads (RawArgs.ofString "not-json") = [] ∧
    executeToolCall envBatch ⟨⟨"lookup_ip_geolocation", RawArgs.ofString "not-json"⟩⟩ =
      resultTextOf (envBatch.call_tool "lookup_ip_geolocation" []) := by
  have h1 := C6_argument_normalization envBatch "lookup_ip_geolocation" "ip-payload"
    [("ip_address", Json.str "45.33.32.156")]
  have h2 := C6_argument_normalization envBatch "lookup_ip_geolocation" "not-json"
    [("ip_address", Json.str "45.33.32.156")]
  exact ⟨h1.2.1 (by rfl), (h2.2.2 (by rfl)).1, (h2.2.2 (by rfl)).2⟩

/-- C7 counterexample: the caller receives only the returned value, and
a completed session whose closing text happens to equal the fixed
exhaustion string is indistinguishable, by returned value, from an
exhausted session, although the control-flow outcomes differ. -/
theorem C7_counterexample :
    (run_soc_agent envLoop 2 "investigate").outcome = Outcome.exhausted ∧
    (run_soc_agent envSentinel 10 "investigate").outcome =
      Outcome.completed (some exhaustedMessage) ∧
    Outcome.returnValue (run_soc_agent envLoop 2 "investigate").outcome =
      Outcome.returnValue (run_soc_agent envSentinel 10 "investigate").outcome :=
  ⟨rfl, rfl, rfl⟩

/-- C7 (amended): when the ceiling is reached the session returns, as a
normal value rather than an error, the fixed string "Agent reached
maximum iterations without completing analysis."; the caller can
distinguish this from any completed session whose closing text is not
itself exactly that string (but not from one whose text equals it). -/
theorem C7_exhausted_outcome (env : Env) (max_iterations : Nat) (user_query : String) :
    ((run_soc_agent env max_iterations user_query).outcome = Outcome.exhausted →
       Outcome.returnValue (run_soc_agent env max_iterations user_query).outcome =
         some exhaustedMessage) ∧
    (∀ t, (run_soc_agent env max_iterations user_query).outcome = Outcome.completed t →
       t ≠ some exhaustedMessage →
       Outcome.returnValue (run_soc_agent env max_iterations user_query).outcome ≠
         some exhaustedMessage) := by
  constructor
  · intro h
    rw [h]
    rfl
  · intro t h hne
    rw [h]
    simpa [Outcome.returnValue] using hne

/-- C7 witness: a concrete exhausted run returns the sentinel string,
and a concrete completed run with a different closing text does not. -/
theorem C7_exhausted_outcome_witness :
    Outcome.returnValue (run_soc_agent envLoop 2 "investigate").outcome =
      some exhaustedMessage ∧
    Outcome.returnValue (run_soc_agent envFinal 10 "summarize").outcome ≠
      some exhaustedMessage := by
  refine ⟨(C7_exhausted_outcome envLoop 2 "investigate").1 (by rfl), ?_⟩
  exact (C7_exhausted_outcome envFinal 10 "summarize").2
    (some "No alerts require action.") (by rfl) (by decide)

/-- C8: on a successful invocation the recorded text is the first
content block's text of the provider response; with zero content blocks
it is the sentinel "Tool returned no content", produced on the success
path (no exception involved). -/
theorem C8_success_text (env : Env) (tc : ToolCall) (r : CallToolResult)
    (h : env.call_tool tc.function.name
        (normalizeArgs env.json_loads tc.function.arguments) = Except.ok r) :
    (r.content = [] → executeToolCall env tc = "Tool returned no content") ∧
    (∀ b rest, r.content = b :: rest → executeToolCall env tc = b.text) := by
  constructor
  · intro hc
    simp [executeToolCall, h, resultTextOf, hc]
  · intro b rest hc
    simp [executeToolCall, h, resultTextOf, hc]

/-- C8 witness: a concrete empty-content success records the sentinel,
and a concrete two-block success records the first block's text. -/
theorem C8_success_text_witness :
    executeToolCall envNoContent tcNone = "Tool returned no content" ∧
    executeToolCall envNoContent tcBlocks = "block one" := by
  refine ⟨(C8_success_text envNoContent tcNone ⟨[]⟩ (by rfl)).1 rfl, ?_⟩
  exact (C8_success_text envNoContent tcBlocks ⟨[⟨"block one"⟩, ⟨"block two"⟩]⟩
    (by rfl)).2 ⟨"block one"⟩ [⟨"block two"⟩] rfl

/-- C9: the descriptor conversion is a total function on descriptors
whose output is the function-tagged shape carrying the descriptor's name
and description with the parameter schema passed through unchanged, and
converting the same descriptor twice yields identical output. -/
theorem C9_conversion_pure (mcp_tool : McpTool) :
    (convert_mcp_tool_to_ollama_format mcp_tool).type = "function" ∧
    (convert_mcp_tool_to_ollama_format mcp_tool).function.name = mcp_tool.name ∧
    (convert_mcp_tool_to_ollama_format mcp_tool).function.description =
      mcp_tool.description ∧
    (convert_mcp_tool_to_ollama_format mcp_tool).function.parameters =
      mcp_tool.inputSchema ∧
    convert_mcp_tool_to_ollama_format mcp_tool =
      convert_mcp_tool_to_ollama_format mcp_tool :=
  ⟨rfl, rfl, rfl, rfl, rfl⟩

/-- C10: every assistant message appended to the transcript is fully
normalized: absent engine text records as the empty string, an absent
tool-call list records as the empty list (both fields always present),
and each loop pass appends exactly this normalized assistant message
directly after the previous transcript. -/
theorem C10_assistant_normalized :
    (recordAssistant ⟨none, none⟩ = Message.assistant "" []) ∧
    (∀ llm_message : ChatMessage,
       recordAssistant llm_message =
         Message.assistant (llm_message.content.getD "")
           ((llm_message.tool_calls.getD []).map fun tc =>
             (⟨⟨tc.function.name, tc.function.arguments⟩⟩ : ToolCall))) ∧
    (∀ (env : Env) (fuel iteration : Nat) (messages : List Message),
       ∃ rest, (agentLoop env (fuel + 1) iteration messages).messages =
         messages ++ recordAssistant (env.chat messages) :: rest) := by
  refine ⟨rfl, fun _ => rfl, ?_⟩
  intro env fuel iteration messages
  by_cases h : (env.chat messages).tool_calls.getD [] = []
  · exact ⟨[], by rw [agentLoop_step_empty env fuel iteration messages h]⟩
  · rw [agentLoop_step_calls env fuel iteration messages h]
    obtain ⟨rest, hr⟩ := agentLoop_extends env fuel (iteration + 1)
      (messages ++ recordAssistant (env.chat messages) ::
        ((env.chat messages).tool_calls.getD []).map
          (fun tc => Message.tool (executeToolCall env tc)))
    refine ⟨((env.chat messages).tool_calls.getD []).map
        (fun tc => Message.tool (executeToolCall env tc)) ++ rest, ?_⟩
    rw [hr]
    simp

end SocAgent
